import Mathlib

/-!
Verification of the resilient API client and auth/routing logic of the
project-company-tracker frontend.

The embedding models, from the JavaScript source:
- `APIClient.request` (retry loop, backoff, error classification),
- `APIClient.getAuthHeaders` and the per-method request configurations,
- `ProtectedRoute` (role gating),
- `AuthProvider.logout` (local cleanup independent of backend outcome),
- the StatusBoard `move`/rollback discipline (modelled from the spec, the
  component source being absent from the provided sources).
-/

namespace Tracker

/-- JS substring test: `s.includes pat` (String.prototype.includes). -/
def jsIncludes (s pat : String) : Bool :=
  decide (List.IsInfix pat.toList s.toList)

/-- A JavaScript `Error` value as observed by the client code: its `name`,
its `message`, and the optional `code` property the code attaches to
network errors. -/
structure JsErr where
  name : String
  message : String
  code : Option String := none
deriving Repr, DecidableEq

/-- The parsed JSON body of a response, as far as `request` inspects it:
the optional `message` field, plus an abstract identity so that "the
payload returned is the body of that attempt" is expressible. -/
structure Body where
  message : Option String
  payload : Nat := 0
deriving Repr, DecidableEq

/-- An HTTP response as observed by one `fetch` attempt: status,
statusText, optional parsed `Retry-After` header value (seconds), and
the body (`none` when `response.json()` rejects, i.e. a malformed body). -/
structure Resp where
  status : Nat
  statusText : String
  retryAfter : Option Nat := none
  body : Option Body := none
deriving Repr, DecidableEq

/-- The outcome of one `fetch` call: either the promise rejects with a
JS error (network-level failure), or a response arrives. -/
abbrev FetchOutcome := Except JsErr Resp

/-- Observable effects of one `request` call: how many `fetch` attempts
were made, the `setTimeout` delays (ms, in order), and how many times the
401 handler cleared the stored user and set `window.location.href`. -/
structure Effects where
  fetches : Nat := 0
  delays : List Nat := []
  authClears : Nat := 0
deriving Repr, DecidableEq

/-- Final result of `request`: the returned payload, a thrown error, or
the `undefined` a JS function returns when its loop exits without
`return`/`throw` (shown unreachable in `C1_retry_bound`). -/
inductive RequestResult where
  | payload (b : Body)
  | thrown (e : JsErr)
  | undefinedReturn
deriving Repr, DecidableEq

/-- Outcome of one loop iteration: `return data`, `throw e`, or
`continue` to the next attempt. -/
inductive StepOut where
  | ret (b : Body)
  | thr (e : JsErr)
  | cont
deriving Repr, DecidableEq

/-- `response.ok`: status in the inclusive range 200–299. -/
def respOk (status : Nat) : Bool :=
  200 ≤ status && status ≤ 299

/-- The error message built when `response.json()` rejects:
`HTTP ${response.status}: ${response.statusText}`. -/
def httpErrMsg (status : Nat) (statusText : String) : String :=
  "HTTP " ++ toString status ++ ": " ++ statusText

/-- The connectivity error the catch block substitutes for a fetch-level
`TypeError`. -/
def networkError : JsErr :=
  { name := "Error"
    message := "Unable to connect to the server. Please check your connection and try again."
    code := some "NETWORK_ERROR" }

/-- The `try` block of one iteration of `APIClient.request` (source lines
140–191): 401 handling, 429 handling with Retry-After, 5xx retry, body
parsing, and status-specific error construction. Returns the delays
slept, the number of clear-user-and-redirect side effects, and the
iteration outcome. -/
def tryBlock (r : FetchOutcome) (attempt retries : Nat) :
    List Nat × Nat × StepOut :=
  match r with
  | .error e => ([], 0, .thr e)
  | .ok resp =>
    if resp.status = 401 then
      -- localStorage.removeItem('user'); window.location.href = '/login';
      ([], 1, .thr { name := "Error", message := "Unauthorized" })
    else if resp.status = 429 then
      let delay := match resp.retryAfter with
        | some n => n * 1000
        | none => 2 ^ attempt * 1000
      if attempt < retries then ([delay], 0, .cont)
      else parseAndClassify resp
    else if 500 ≤ resp.status ∧ attempt < retries then
      ([2 ^ attempt * 1000], 0, .cont)
    else parseAndClassify resp
where
  /-- Lines 169–191: parse the body, then either throw a classified
  error for a non-ok status or return the data. -/
  parseAndClassify (resp : Resp) : List Nat × Nat × StepOut :=
    match resp.body with
    | none =>
      ([], 0, .thr { name := "Error", message := httpErrMsg resp.status resp.statusText })
    | some data =>
      if respOk resp.status then ([], 0, .ret data)
      else if resp.status = 401 then
        ([], 0, .thr { name := "Error"
                       message := data.message.getD "Authentication failed" })
      else if resp.status = 429 then
        ([], 0, .thr { name := "Error"
                       message := "Too many requests. Please try again later." })
      else if 500 ≤ resp.status then
        ([], 0, .thr { name := "Error"
                       message := "Server error. Please try again later." })
      else
        ([], 0, .thr { name := "Error"
                       message := data.message.getD (httpErrMsg resp.status resp.statusText) })

/-- The `catch` block (source lines 192–215): rewrap fetch-level
TypeErrors as a terminal connectivity error; rethrow on the last attempt
or when the message pattern-matches a non-401/429 4xx; otherwise sleep
the exponential backoff and continue. -/
def catchBlock (e : JsErr) (attempt retries : Nat) : List Nat × StepOut :=
  if e.name = "TypeError" ∧ jsIncludes e.message "fetch" then
    ([], .thr networkError)
  else if attempt = retries ∨
      (jsIncludes e.message "HTTP 4" ∧ ¬ jsIncludes e.message "401" ∧
       ¬ jsIncludes e.message "429") then
    ([], .thr e)
  else if attempt < retries then
    ([2 ^ attempt * 1000], .cont)
  else
    ([], .thr e)

/-- One full iteration of the retry loop: run the try block, feed any
thrown error into the catch block. -/
def attemptStep (r : FetchOutcome) (attempt retries : Nat) :
    List Nat × Nat × StepOut :=
  match tryBlock r attempt retries with
  | (ds, ac, .thr e) =>
    let c := catchBlock e attempt retries
    (ds ++ c.1, ac, c.2)
  | t => t

/-- The `for (let attempt = 1; attempt <= retries; attempt++)` loop.
`trace n` is the outcome of the fetch on attempt `n`. The fuel argument
makes the recursion structural; `request` supplies `retries + 1`, enough
for every reachable iteration, and the fuel-exhaustion case coincides
with the loop's normal exit (returning `undefined`). -/
def requestLoop (trace : Nat → FetchOutcome) (retries : Nat) :
    Nat → Nat → Effects → Effects × RequestResult
  | 0, _, eff => (eff, .undefinedReturn)
  | fuel + 1, attempt, eff =>
    if attempt ≤ retries then
      let step := attemptStep (trace attempt) attempt retries
      let eff2 : Effects :=
        { fetches := eff.fetches + 1
          delays := eff.delays ++ step.1
          authClears := eff.authClears + step.2.1 }
      match step.2.2 with
      | .ret b => (eff2, .payload b)
      | .thr e => (eff2, .thrown e)
      | .cont => requestLoop trace retries fuel (attempt + 1) eff2
    else (eff, .undefinedReturn)

/-- `APIClient.request` with the default `retries = 3`, run against a
trace of per-attempt fetch outcomes. -/
def request (trace : Nat → FetchOutcome) (retries : Nat := 3) :
    Effects × RequestResult :=
  requestLoop trace retries (retries + 1) 1 {}

/-! ### Concrete fetch traces used to evaluate `request` -/

/-- Every attempt's fetch rejects with the browser's network-level
TypeError (Chrome wording). -/
def networkFailTrace : Nat → FetchOutcome :=
  fun _ => .error { name := "TypeError", message := "Failed to fetch" }

/-- Every attempt's fetch rejects with Firefox's network-level TypeError. -/
def firefoxNetTrace : Nat → FetchOutcome :=
  fun _ => .error { name := "TypeError"
                    message := "NetworkError when attempting to fetch resource." }

/-- Every attempt receives HTTP 400 with a JSON body carrying a server
message. -/
def badRequestMsgTrace : Nat → FetchOutcome :=
  fun _ => .ok { status := 400, statusText := "Bad Request",
                 body := some { message := some "Invalid input" } }

/-- Every attempt receives HTTP 401. -/
def unauthorizedTrace : Nat → FetchOutcome :=
  fun _ => .ok { status := 401, statusText := "Unauthorized" }

/-- Every attempt receives HTTP 200 whose body fails to parse as JSON. -/
def malformedOkTrace : Nat → FetchOutcome :=
  fun _ => .ok { status := 200, statusText := "OK", body := none }

/-- Every attempt receives HTTP 404 whose body fails to parse as JSON. -/
def malformedNotFoundTrace : Nat → FetchOutcome :=
  fun _ => .ok { status := 404, statusText := "Not Found", body := none }

/-! ### The request configuration built by `APIClient` -/

/-- JS object spread on string-keyed records: keys of `a` (values
overridden by `b` where present) followed by the keys only in `b`. -/
def jsSpread (a b : List (String × String)) : List (String × String) :=
  a.map (fun p => match b.lookup p.1 with | some v => (p.1, v) | none => p) ++
    b.filter (fun p => (a.lookup p.1).isNone)

/-- `APIClient.getAuthHeaders` (source lines 118–126): cookies carry the
session, so the only header produced is Content-Type. -/
def getAuthHeaders : List (String × String) :=
  [("Content-Type", "application/json")]

/-- The `config` object passed to `fetch` (source lines 130–137). The
body is the `JSON.stringify`-ed caller object, modelled as its field
list, passed through unchanged. -/
structure RequestConfig where
  method : String
  headers : List (String × String)
  credentials : String
  body : Option (List (String × String)) := none
deriving Repr, DecidableEq

/-- Building the config: spread the caller options, merge headers over
`getAuthHeaders`, and force `credentials := "include"`. -/
def buildConfig (method : String) (body : Option (List (String × String)))
    (optHeaders : List (String × String) := []) : RequestConfig :=
  { method := method
    headers := jsSpread getAuthHeaders optHeaders
    credentials := "include"
    body := body }

/-- `APIClient.get` request configuration. -/
def getConfig : RequestConfig := buildConfig "GET" none

/-- `APIClient.post` request configuration. -/
def postConfig (b : List (String × String)) : RequestConfig :=
  buildConfig "POST" (some b)

/-- `APIClient.put` request configuration. -/
def putConfig (b : List (String × String)) : RequestConfig :=
  buildConfig "PUT" (some b)

/-- `APIClient.patch` request configuration. -/
def patchConfig (b : List (String × String)) : RequestConfig :=
  buildConfig "PATCH" (some b)

/-- `APIClient.delete` request configuration. -/
def deleteConfig : RequestConfig := buildConfig "DELETE" none

/-! ### ProtectedRoute -/

/-- The authenticated user as `ProtectedRoute` reads it: only the role
matters. -/
structure AuthUser where
  role : String
deriving Repr, DecidableEq

/-- What `ProtectedRoute` renders. -/
inductive RouteResult where
  | loadingView
  | toLogin
  | toDashboard
  | showChildren
deriving Repr, DecidableEq

/-- `ProtectedRoute` (part_000 lines 4–25): loading placeholder; no user
redirects to /login; a manager-gated route shows its children only to
role Manager or Admin and redirects everyone else to /dashboard. -/
def protectedRoute (loading : Bool) (user : Option AuthUser)
    (requireAdmin requireManager : Bool) : RouteResult :=
  if loading then .loadingView
  else
    match user with
    | none => .toLogin
    | some u =>
      let requiresManagerAccess := requireManager || requireAdmin
      if requiresManagerAccess && !(u.role == "Manager") && !(u.role == "Admin") then
        .toDashboard
      else .showChildren

/-! ### AuthProvider.logout -/

/-- The script-visible session state `logout` touches: the `user`
localStorage entry, the React `user` state, and `window.location.href`. -/
structure SessionState where
  storedUser : Option String
  user : Option String
  location : String
deriving Repr, DecidableEq

/-- A record of the one fetch `logout` issues. -/
structure FetchCall where
  url : String
  method : String
  credentials : String
deriving Repr, DecidableEq

/-- `AuthProvider.logout` (part_001 lines 64–79): POST /auth/logout with
the cookie attached; the catch only logs; the finally block clears the
stored user, nulls the state, and navigates to /login whatever the
backend did. -/
def logout (backendResult : Except JsErr Unit) (s : SessionState) :
    FetchCall × SessionState :=
  let call : FetchCall :=
    { url := "/auth/logout", method := "POST", credentials := "include" }
  let afterTry : SessionState :=
    match backendResult with
    | .ok _ => s
    | .error _ => s
  (call,
    { afterTry with storedUser := none, user := none, location := "/login" })

/-! ### StatusBoard (modelled from the spec)

The KanbanBoard component itself is not among the provided sources (only
its test suite is), so the drag-move state machine is modelled from the
spec: three status columns derived from task status, optimistic move,
commit on persist success, revert to the pre-drag snapshot plus an error
on persist failure. -/

/-- Task status: the three fixed columns. -/
inductive TaskStatus where
  | todo
  | inProgress
  | done
deriving Repr, DecidableEq

/-- A task as the board holds it. -/
structure Task where
  id : Nat
  title : String
  description : Option String := none
  status : TaskStatus
  assigneeId : Option Nat := none
deriving Repr, DecidableEq

/-- The board: three ordered columns. -/
structure Board where
  todo : List Task
  inProgress : List Task
  done : List Task
deriving Repr, DecidableEq

/-- The column holding a given status. -/
def Board.column (b : Board) : TaskStatus → List Task
  | .todo => b.todo
  | .inProgress => b.inProgress
  | .done => b.done

/-- Replace one column. -/
def Board.setColumn (b : Board) : TaskStatus → List Task → Board
  | .todo, l => { b with todo := l }
  | .inProgress, l => { b with inProgress := l }
  | .done, l => { b with done := l }

/-- Find a task anywhere on the board. -/
def Board.findTask (b : Board) (tid : Nat) : Option Task :=
  (b.todo ++ b.inProgress ++ b.done).find? (fun t => t.id = tid)

/-- The column and index a task currently occupies. -/
def Board.position (b : Board) (tid : Nat) : Option (TaskStatus × Nat) :=
  match b.todo.findIdx? (fun t => t.id = tid) with
  | some i => some (.todo, i)
  | none =>
    match b.inProgress.findIdx? (fun t => t.id = tid) with
    | some i => some (.inProgress, i)
    | none =>
      match b.done.findIdx? (fun t => t.id = tid) with
      | some i => some (.done, i)
      | none => none

/-- Remove a task from every column. -/
def Board.removeTask (b : Board) (tid : Nat) : Board :=
  { todo := b.todo.filter (fun t => t.id ≠ tid)
    inProgress := b.inProgress.filter (fun t => t.id ≠ tid)
    done := b.done.filter (fun t => t.id ≠ tid) }

/-- Modelled from the spec: the optimistic reorder of
`move(taskId, targetStatus, targetIndex)` — the dropped task is inserted
at the exact index indicated by the drop target, shifting subsequent
tasks down by one. -/
def Board.applyMove (b : Board) (tid : Nat) (target : TaskStatus) (idx : Nat) : Board :=
  match b.findTask tid with
  | none => b
  | some t =>
    let b2 := b.removeTask tid
    b2.setColumn target ((b2.column target).insertIdx idx { t with status := target })

/-- Modelled from the spec: reconciliation on commit — the local task is
replaced by the server's returned record. -/
def Board.replaceTask (b : Board) (srv : Task) : Board :=
  let rep := fun (l : List Task) => l.map (fun t => if t.id = srv.id then srv else t)
  { todo := rep b.todo, inProgress := rep b.inProgress, done := rep b.done }

/-- Modelled from the spec: `StatusBoard.move` — take the pre-drag
snapshot, apply the optimistic move, then either commit the server
record (persist succeeded) or revert to the snapshot and raise a
user-visible error (persist failed after the client's retries). Returns
the resulting board and whether an error was raised. -/
def Board.move (b : Board) (tid : Nat) (target : TaskStatus) (idx : Nat)
    (persist : Except JsErr Task) : Board × Bool :=
  let snapshot := b
  let optimistic := b.applyMove tid target idx
  match persist with
  | .ok srv => (optimistic.replaceTask srv, false)
  | .error _ => (snapshot, true)

/-- The spec's three-task example board. -/
def exampleBoard : Board :=
  { todo := [{ id := 1, title := "Task 1", status := .todo }]
    inProgress := [{ id := 2, title := "Task 2", status := .inProgress }]
    done := [{ id := 3, title := "Task 3", status := .done }] }

/-! ### Lemmas about the retry loop -/

theorem parseAndClassify_ne_cont (resp : Resp) :
    (tryBlock.parseAndClassify resp).2.2 ≠ StepOut.cont := by
  unfold tryBlock.parseAndClassify
  rcases resp.body with _ | data
  · simp
  · simp only
    split_ifs <;> simp

theorem tryBlock_cont (r : FetchOutcome) (attempt retries : Nat)
    (h : (tryBlock r attempt retries).2.2 = StepOut.cont) : attempt < retries := by
  rcases r with e | resp
  · simp [tryBlock] at h
  · by_cases hlt : attempt < retries
    · exact hlt
    · exfalso
      simp only [tryBlock] at h
      split_ifs at h
      · exact parseAndClassify_ne_cont resp h
      · omega
      · exact parseAndClassify_ne_cont resp h

theorem catchBlock_cont (e : JsErr) (attempt retries : Nat)
    (h : (catchBlock e attempt retries).2 = StepOut.cont) : attempt < retries := by
  unfold catchBlock at h
  split_ifs at h
  all_goals omega

theorem attemptStep_cont (r : FetchOutcome) (attempt retries : Nat)
    (h : (attemptStep r attempt retries).2.2 = StepOut.cont) : attempt < retries := by
  unfold attemptStep at h
  rcases htry : tryBlock r attempt retries with ⟨ds, ac, out⟩
  rw [htry] at h
  cases out with
  | ret b => simp at h
  | thr e =>
    simp only at h
    exact catchBlock_cont e attempt retries h
  | cont => exact tryBlock_cont r attempt retries (by rw [htry])

/-- The loop, entered at `attempt ≤ retries` with enough fuel, never
falls off the end (never returns `undefined`) and makes at most
`retries + 1 - attempt` further fetches. -/
theorem requestLoop_bound (trace : Nat → FetchOutcome) (retries : Nat) :
    ∀ fuel attempt eff, attempt ≤ retries → retries + 1 ≤ attempt + fuel →
      (requestLoop trace retries fuel attempt eff).2 ≠ RequestResult.undefinedReturn ∧
      (requestLoop trace retries fuel attempt eff).1.fetches ≤
        eff.fetches + (retries + 1 - attempt) := by
  intro fuel
  induction fuel with
  | zero => intro attempt eff h1 h2; omega
  | succ fuel ih =>
    intro attempt eff h1 h2
    simp only [requestLoop]
    rw [if_pos h1]
    rcases hstep : (attemptStep (trace attempt) attempt retries).2.2 with b | e
    · simp [hstep]; omega
    · simp [hstep]; omega
    · simp only [hstep]
      have hlt : attempt < retries := attemptStep_cont _ _ _ hstep
      have := ih (attempt + 1)
        { fetches := eff.fetches + 1
          delays := eff.delays ++ (attemptStep (trace attempt) attempt retries).1
          authClears := eff.authClears + (attemptStep (trace attempt) attempt retries).2.1 }
        (by omega) (by omega)
      refine ⟨this.1, ?_⟩
      calc (requestLoop trace retries fuel (attempt + 1) _).1.fetches
          ≤ (eff.fetches + 1) + (retries + 1 - (attempt + 1)) := this.2
        _ ≤ eff.fetches + (retries + 1 - attempt) := by omega

/-! ### The claims -/

/-- C1: for every trace of fetch outcomes — 5xx and 429 responses
included — `APIClient.request` makes at most 3 fetch attempts, and the
retry loop never falls off the end: it returns a payload or throws. -/
theorem C1_request_attempt_bound (trace : Nat → FetchOutcome) :
    (request trace).2 ≠ RequestResult.undefinedReturn ∧
    (request trace).1.fetches ≤ 3 := by
  have h := requestLoop_bound trace 3 4 1 {} (by omega) (by omega)
  exact ⟨h.1, by simpa using h.2⟩

/-- C2 (counterexample): when every attempt's fetch fails at the network
level, `request` makes exactly one attempt, sleeps no backoff, and
throws the connectivity error at once — it is not retried up to the
3-attempt bound as the claim states. -/
theorem C2_connectivity_counterexample :
    request networkFailTrace =
      ({ fetches := 1, delays := [], authClears := 0 },
        RequestResult.thrown networkError) := by decide

/-- C2 (amended): a network-level fetch failure (a TypeError whose
message mentions fetch) is classified as a connectivity failure — the
error with code NETWORK_ERROR — but it is terminal: thrown on the first
occurrence, with one attempt and no backoff, never retried. -/
theorem C2_connectivity_terminal (trace : Nat → FetchOutcome) (e : JsErr)
    (h1 : trace 1 = .error e) (h2 : e.name = "TypeError")
    (h3 : jsIncludes e.message "fetch" = true) :
    request trace =
      ({ fetches := 1, delays := [], authClears := 0 },
        RequestResult.thrown networkError) := by
  simp [request, requestLoop, attemptStep, tryBlock, catchBlock, h1, h2, h3]

/-- C2 witness: the amended theorem applied to Firefox's network error. -/
theorem C2_connectivity_terminal_witness :
    jsIncludes "NetworkError when attempting to fetch resource." "fetch" = true ∧
    request firefoxNetTrace =
      ({ fetches := 1, delays := [], authClears := 0 },
        RequestResult.thrown networkError) :=
  ⟨by decide,
    C2_connectivity_terminal firefoxNetTrace
      { name := "TypeError"
        message := "NetworkError when attempting to fetch resource." }
      rfl rfl (by decide)⟩

/-- C3: on an attempt that will be retried, a 429 carrying Retry-After r
waits exactly r·1000 ms (the exponential schedule is not used), a 429
without Retry-After waits 2^attempt·1000 ms, and a 5xx always waits
2^attempt·1000 ms. -/
theorem C3_backoff_schedule (st : String) (b : Option Body) (ra : Nat) (attempt : Nat)
    (h : attempt < 3) :
    attemptStep (.ok { status := 429, statusText := st, retryAfter := some ra, body := b })
        attempt 3 = ([ra * 1000], 0, StepOut.cont)
    ∧ attemptStep (.ok { status := 429, statusText := st, retryAfter := none, body := b })
        attempt 3 = ([2 ^ attempt * 1000], 0, StepOut.cont)
    ∧ ∀ s ra2, 500 ≤ s →
        attemptStep (.ok { status := s, statusText := st, retryAfter := ra2, body := b })
          attempt 3 = ([2 ^ attempt * 1000], 0, StepOut.cont) := by
  refine ⟨?_, ?_, ?_⟩
  · simp [attemptStep, tryBlock, h]
  · simp [attemptStep, tryBlock, h]
  · intro s ra2 hs
    have h1 : ¬ s = 401 := by omega
    have h2 : ¬ s = 429 := by omega
    simp [attemptStep, tryBlock, h, h1, h2, hs]

/-- C3 witness: a first-attempt 429 with Retry-After 2 waits 2000 ms. -/
theorem C3_backoff_schedule_witness :
    (1 : Nat) < 3 ∧
    attemptStep
        (.ok { status := 429, statusText := "Too Many Requests"
               retryAfter := some 2, body := none })
        1 3 = ([2 * 1000], 0, StepOut.cont) :=
  ⟨by decide, (C3_backoff_schedule "Too Many Requests" none 2 1 (by decide)).1⟩

/-- C4 (code bug): a 400 response whose JSON body carries the server
message Invalid input is retried — three attempts with backoff — because
the catch block recognises terminal client errors only by the literal
text HTTP 4 in the error message, which a server-provided message lacks;
the code's own comment says 4xx other than 401/429 must not be
retried. -/
theorem C4_client_error_retried_bug :
    request badRequestMsgTrace =
      ({ fetches := 3, delays := [2000, 4000], authClears := 0 },
        RequestResult.thrown { name := "Error", message := "Invalid input" }) := by decide

/-- C5 (code bug): a 401 response is treated as retryable — the thrown
Unauthorized error is caught by the same catch block, so the call makes
3 attempts and repeats the clear-stored-user-and-redirect side effect 3
times, where the claim (and the spec) say one terminal attempt with a
one-shot side effect. -/
theorem C5_unauthorized_retried_bug :
    request unauthorizedTrace =
      ({ fetches := 3, delays := [2000, 4000], authClears := 3 },
        RequestResult.thrown { name := "Error", message := "Unauthorized" }) := by decide

/-- C6 (counterexample): a 200 response whose body fails to parse as
JSON is NOT terminal: the resulting HTTP 200: OK error is retried twice
more with exponential backoff before being thrown, contradicting the
claim that a malformed body is thrown without further attempts. -/
theorem C6_malformed_retry_counterexample :
    request malformedOkTrace =
      ({ fetches := 3, delays := [2000, 4000], authClears := 0 },
        RequestResult.thrown { name := "Error", message := "HTTP 200: OK" }) := by decide

/-- C6 (amended): a malformed body yields the transport error
HTTP status: statusText, distinct from a server-reported message — it is
terminal on the first attempt only when that message pattern-matches a
4xx other than 401/429 (here a 404); for other statuses (here a 200) the
error is retried with exponential backoff and surfaced after the
3-attempt bound. -/
theorem C6_transport_classification :
    request malformedNotFoundTrace =
      ({ fetches := 1, delays := [], authClears := 0 },
        RequestResult.thrown { name := "Error", message := "HTTP 404: Not Found" })
    ∧ request malformedOkTrace =
      ({ fetches := 3, delays := [2000, 4000], authClears := 0 },
        RequestResult.thrown { name := "Error", message := "HTTP 200: OK" }) := by decide

/-- C7: every request configuration the client builds — GET, POST, PUT,
PATCH, DELETE — carries credentials include (the cookie side channel),
produces no Authorization header, and passes the caller's body through
unchanged, adding no token field. -/
theorem C7_credentials_cookie_only (b : List (String × String)) :
    (getConfig.credentials = "include" ∧ getConfig.headers.lookup "Authorization" = none
      ∧ getConfig.body = none)
    ∧ ((postConfig b).credentials = "include"
      ∧ (postConfig b).headers.lookup "Authorization" = none ∧ (postConfig b).body = some b)
    ∧ ((putConfig b).credentials = "include"
      ∧ (putConfig b).headers.lookup "Authorization" = none ∧ (putConfig b).body = some b)
    ∧ ((patchConfig b).credentials = "include"
      ∧ (patchConfig b).headers.lookup "Authorization" = none ∧ (patchConfig b).body = some b)
    ∧ (deleteConfig.credentials = "include"
      ∧ deleteConfig.headers.lookup "Authorization" = none ∧ deleteConfig.body = none) := by
  refine ⟨⟨rfl, rfl, rfl⟩, ⟨rfl, rfl, rfl⟩, ⟨rfl, rfl, rfl⟩, ⟨rfl, rfl, rfl⟩, rfl, rfl, rfl⟩

/-- C8: when the persist call of a move fails after the client's
retries, the board reverts to the exact pre-drag snapshot — the moved
task is back in its original column at its original index, every column
is unchanged — and a user-visible error is raised. StatusBoard is
modelled from the spec, its source being absent. -/
theorem C8_rollback_roundtrip (b : Board) (tid : Nat) (target : TaskStatus) (idx : Nat)
    (e : JsErr) (c : TaskStatus) (i : Nat)
    (hpos : b.position tid = some (c, i)) :
    (b.move tid target idx (.error e)).1.position tid = some (c, i)
    ∧ (∀ s, (b.move tid target idx (.error e)).1.column s = b.column s)
    ∧ (b.move tid target idx (.error e)).2 = true := by
  refine ⟨?_, fun s => rfl, rfl⟩
  simpa [Board.move] using hpos

/-- C8 witness: the spec's three-task board, task 2 dragged to Done at
index 0 with a failing persist, ends back at In Progress index 0. -/
theorem C8_rollback_roundtrip_witness :
    exampleBoard.position 2 = some (TaskStatus.inProgress, 0) ∧
    (exampleBoard.move 2 TaskStatus.done 0
        (.error { name := "Error", message := "Server error. Please try again later." })).1.position 2
      = some (TaskStatus.inProgress, 0) :=
  ⟨by decide,
    (C8_rollback_roundtrip exampleBoard 2 TaskStatus.done 0
      { name := "Error", message := "Server error. Please try again later." }
      TaskStatus.inProgress 0 (by decide)).1⟩

/-- C9: on a manager-gated route (requireManager or the legacy
requireAdmin), once loading is over a logged-in user sees the children
exactly when the role is Manager or Admin and is otherwise redirected to
/dashboard; with no user the redirect is to /login. -/
theorem C9_manager_gate (u : AuthUser) (requireAdmin requireManager : Bool)
    (h : (requireManager || requireAdmin) = true) :
    (protectedRoute false (some u) requireAdmin requireManager = RouteResult.showChildren
        ↔ (u.role = "Manager" ∨ u.role = "Admin"))
    ∧ (protectedRoute false (some u) requireAdmin requireManager = RouteResult.toDashboard
        ↔ ¬(u.role = "Manager" ∨ u.role = "Admin"))
    ∧ protectedRoute false none requireAdmin requireManager = RouteResult.toLogin := by
  unfold protectedRoute
  simp only [if_neg (by simp : ¬(false = true)), h]
  by_cases h1 : u.role = "Manager" <;> by_cases h2 : u.role = "Admin" <;>
    simp [h1, h2]

/-- C9 witness: a Manager on a requireManager route sees the children. -/
theorem C9_manager_gate_witness :
    (true || false) = true ∧
    protectedRoute false (some { role := "Manager" }) false true
      = RouteResult.showChildren :=
  ⟨rfl, (C9_manager_gate { role := "Manager" } false true rfl).1.mpr (Or.inl rfl)⟩

/-- C10: whatever the backend logout call does — succeed or throw —
`logout` clears the stored user, nulls the user state, and navigates to
/login; and the one request it sends is POST /auth/logout with the
cookie attached. -/
theorem C10_logout_local_cleanup (r : Except JsErr Unit) (s : SessionState) :
    ((logout r s).2.storedUser = none ∧ (logout r s).2.user = none
      ∧ (logout r s).2.location = "/login")
    ∧ (logout r s).1 =
        { url := "/auth/logout", method := "POST", credentials := "include" } := by
  rcases r with u | e <;> simp [logout]

end Tracker
